import Mathlib

/-!
Verification of the n8n chat-history read API.

The repository contains three implementations of the same read API:

* a Go backend over the `n8n_chat_histories` table (JSONB `message` column),
  with a search filter; its handlers are `GetChatsHandler`,
  `handleSimplePagination` and `handleSessionGrouping` (first program of
  `src/unnamed/part_000`);
* a second Go backend over the `chats` table (flat message columns), with
  strict 400-validation of `page`/`pageSize` and a stats endpoint
  (`GetChatsHandler`, `handleSessionGrouping`, `handleSimplePagination`,
  `GetChatStatsHandler`; second program of `src/unnamed/part_000`);
* a Next.js route (`src/src/app/api/chats/route.tsx`) and a stats route
  (`src/unnamed/part_001`).

SQL queries are embedded over a table modelled as a `List` of rows, in
insertion order.  `ORDER BY` is modelled by `List.insertionSort` (a sorted
permutation, which is all SQL guarantees), `LIMIT`/`OFFSET` by
`List.take`/`List.drop`, `DISTINCT` by `List.dedup` (first-appearance
order; a `SELECT DISTINCT` without `ORDER BY` has no ordering guarantee in
PostgreSQL, and first-appearance order is the deterministic refinement used
here), and `COUNT` by `List.length`.
-/

/-- Lowercasing of a single character, as used by the case-insensitive
`ILIKE` comparison. -/
def lowerChar (c : Char) : Char := c.toLower

/-- Boolean test that `pat` is a leading segment of `l`. -/
def leadB : List Char → List Char → Bool
  | [], _ => true
  | _ :: _, [] => false
  | a :: as, b :: bs => (a == b) && leadB as bs

/-- Boolean test that `pat` occurs as a contiguous segment of `l`. -/
def subB (pat : List Char) : List Char → Bool
  | [] => pat.isEmpty
  | c :: rest => leadB pat (c :: rest) || subB pat rest

/-- Model of `column ILIKE '%' || term || '%'`: case-insensitive substring
containment of `term` in `hay`.  (Faithful for terms containing no SQL
wildcard characters.) -/
def strContains (hay term : String) : Bool :=
  subB (term.data.map lowerChar) (hay.data.map lowerChar)

/-- Lexicographic comparison of character lists by code point, modelling
the ordering `ORDER BY session_id` produces under a byte-wise collation. -/
def listLeB : List Char → List Char → Bool
  | [], _ => true
  | _ :: _, [] => false
  | a :: as, b :: bs =>
    if a.toNat < b.toNat then true
    else if b.toNat < a.toNat then false
    else listLeB as bs

/-- Lexicographic order on strings (code-point order). -/
def StrLe (a b : String) : Prop := listLeB a.data b.data = true

instance : DecidableRel StrLe := fun _ _ => inferInstanceAs (Decidable (_ = true))

/-- One row of the `n8n_chat_histories` table.  `message` holds the JSONB
`message` column rendered as text, which is what `message::text ILIKE …`
filters on. -/
structure Chat where
  id : Nat
  sessionId : String
  message : String
deriving DecidableEq

/-- The `n8n_chat_histories` table, in insertion order. -/
abbrev Table := List Chat

/-- Pagination metadata of the response envelope. -/
structure Pagination where
  page : Nat
  pageSize : Nat
  total : Nat
  totalPages : Nat
  groupBy : String
deriving DecidableEq

/-- The `data` field of the response: either a flat list of rows
(`groupBy=simple`) or a mapping sessionId → messages (`groupBy=session`,
a Go `map[string]*ChatConversation` serialised as a JSON object). -/
inductive RespData where
  | rows (items : List Chat) : RespData
  | convs (groups : List (String × List String)) : RespData
deriving DecidableEq

/-- The conversation groups carried by a `session`-mode response (empty for
a `simple`-mode response). -/
def RespData.convList : RespData → List (String × List String)
  | .rows _ => []
  | .convs g => g

/-- The response envelope `{data, pagination}`. -/
structure APIResponse where
  data : RespData
  pagination : Pagination
deriving DecidableEq

/-- The row predicate of the search filter:
`message::text ILIKE $term OR session_id ILIKE $term`. -/
def rowMatches (term : String) (c : Chat) : Bool :=
  strContains c.message term || strContains c.sessionId term

/-- The effective `WHERE` clause of both queries of the searchable handler:
no filter when the (trimmed) search term is empty, else `rowMatches`. -/
def sessionFilterRow (term : String) (c : Chat) : Bool :=
  if term = "" then true else rowMatches term c

/-- Rows matching the filter (the rows the `WHERE` clause keeps). -/
def matchingRows (t : Table) (term : String) : List Chat :=
  t.filter (sessionFilterRow term)

/-- `SELECT DISTINCT session_id FROM n8n_chat_histories WHERE …`:
the distinct session ids having at least one matching row. -/
def distinctMatchingSessions (t : Table) (term : String) : List String :=
  ((matchingRows t term).map (fun c => c.sessionId)).dedup

/-- The same distinct ids after `ORDER BY session_id`. -/
def sortedSessions (t : Table) (term : String) : List String :=
  List.insertionSort StrLe (distinctMatchingSessions t term)

/-- `… ORDER BY session_id LIMIT pageSize OFFSET offset`: the page window
of session ids. -/
def sessionWindow (t : Table) (term : String) (pageSize offset : Nat) : List String :=
  ((sortedSessions t term).drop offset).take pageSize

/-- `ORDER BY id ASC` / `ORDER BY id DESC` over a list of rows (the
`orderClause` of the searchable Go handlers). -/
def sortChats (sortOrder : String) (cs : List Chat) : List Chat :=
  if sortOrder = "desc" then List.insertionSort (fun a b => b.id ≤ a.id) cs
  else List.insertionSort (fun a b => a.id ≤ b.id) cs

/-- `SELECT … WHERE session_id IN (window) ORDER BY id ASC/DESC`: all rows
of the selected sessions, with no further filter. -/
def fetchedChats (t : Table) (window : List String) (sortOrder : String) : List Chat :=
  sortChats sortOrder (t.filter (fun c => decide (c.sessionId ∈ window)))

/-- The Go grouping loop: a map from sessionId to that session's messages,
keys in first-encounter order, each session's messages in fetch order. -/
def groupBySession (cs : List Chat) : List (String × List String) :=
  ((cs.map (fun c => c.sessionId)).dedup).map
    (fun sid => (sid, (cs.filter (fun c => decide (c.sessionId = sid))).map (fun c => c.message)))

/-- `handleSessionGrouping` of the searchable Go backend: page over the
distinct matching session ids, fetch the full history of the selected
sessions, group it, and report the distinct-session count as `total`.
When the page window is empty the handler returns early with an empty
mapping and `total = 0`, without running the count query. -/
def handleSessionGrouping (t : Table) (page pageSize : Nat) (sortOrder : String)
    (offset : Nat) (searchTerm : String) : APIResponse :=
  let window := sessionWindow t searchTerm pageSize offset
  if window.isEmpty then
    { data := .convs [], pagination := ⟨page, pageSize, 0, 0, "session"⟩ }
  else
    let totalSessions := (distinctMatchingSessions t searchTerm).length
    { data := .convs (groupBySession (fetchedChats t window sortOrder)),
      pagination :=
        ⟨page, pageSize, totalSessions, (totalSessions + pageSize - 1) / pageSize, "session"⟩ }

/-- `handleSimplePagination` of the searchable Go backend: filter, order by
`id`, window with `LIMIT`/`OFFSET`; `total` counts the rows matching the
same filter. -/
def handleSimplePagination (t : Table) (page pageSize : Nat) (sortOrder : String)
    (offset : Nat) (searchTerm : String) : APIResponse :=
  let window := ((sortChats sortOrder (matchingRows t searchTerm)).drop offset).take pageSize
  let totalCount := (matchingRows t searchTerm).length
  { data := .rows window,
    pagination :=
      ⟨page, pageSize, totalCount, (totalCount + pageSize - 1) / pageSize, "simple"⟩ }

/-- `sortOrder` normalisation shared by both Go handlers:
anything other than `asc`/`desc` silently becomes `asc`. -/
def normalizeSortOrder (s : String) : String :=
  if s ≠ "asc" ∧ s ≠ "desc" then "asc" else s

/-- `groupBy` defaulting shared by both Go handlers: empty becomes `simple`. -/
def normalizeGroupBy (g : String) : String :=
  if g = "" then "simple" else g

/-- The two request-shape branches. -/
inductive Mode where
  | simple : Mode
  | session : Mode
deriving DecidableEq

/-- The dispatch of both Go handlers: the session branch runs exactly when
`groupBy == "session"`; every other value falls into the simple branch. -/
def dispatchMode (g : String) : Mode :=
  if normalizeGroupBy g = "session" then .session else .simple

/-- `GetChatsHandler` of the searchable (permissive) Go backend.  Raw
query-string integers are modelled as `Option Int` (`none` = absent or
unparsable, in which case `strconv.Atoi` yields `0` alongside its error).
`page < 1` clamps to `1`, `pageSize` outside `[1,100]` clamps to `10`;
there is no error path. -/
def getChatsHandlerA (t : Table) (rawPage rawPageSize : Option Int)
    (sortOrder groupBy search : String) : APIResponse :=
  let page : Int := match rawPage with
    | none => 1
    | some v => if v < 1 then 1 else v
  let pageSize : Int := match rawPageSize with
    | none => 10
    | some v => if v < 1 ∨ 100 < v then 10 else v
  let so := normalizeSortOrder sortOrder
  let term := search.trim
  let offset := ((page - 1) * pageSize).toNat
  match dispatchMode groupBy with
  | .session => handleSessionGrouping t page.toNat pageSize.toNat so offset term
  | .simple => handleSimplePagination t page.toNat pageSize.toNat so offset term

/-- `GetChatsHandler` of the strict Go backend (second program of
`src/unnamed/part_000`): an unparsable value or the parsed value `0` falls
back to the default (`1` / `10`); after that, `page < 1` and `pageSize`
outside `[1,100]` are rejected with 400 and a descriptive message.  The
result carries the accepted `(page, pageSize, sortOrder, mode)`. -/
def getChatsHandlerB (rawPage rawPageSize : Option Int) (sortOrder groupBy : String) :
    Except (Nat × String) (Int × Int × String × Mode) :=
  let page : Int := match rawPage with
    | none => 1
    | some v => if v = 0 then 1 else v
  let pageSize : Int := match rawPageSize with
    | none => 10
    | some v => if v = 0 then 10 else v
  let so := normalizeSortOrder sortOrder
  if page < 1 then .error (400, "Page must be greater than 0")
  else if pageSize < 1 ∨ 100 < pageSize then
    .error (400, "Page size must be between 1 and 100")
  else .ok (page, pageSize, so, dispatchMode groupBy)

/-- The validation policy the spec describes for the strict variant,
modelled from the claim's words: values that do not parse as integers fall
back to the defaults, and after that fallback any `page < 1` or `pageSize`
outside `[1,100]` — including the parsed values `0` and `101` — is rejected
with a 400 error. -/
def claimedStrictValidation (rawPage rawPageSize : Option Int) :
    Except (Nat × String) (Int × Int) :=
  let page : Int := rawPage.getD 1
  let pageSize : Int := rawPageSize.getD 10
  if page < 1 then .error (400, "Page must be greater than 0")
  else if pageSize < 1 ∨ 100 < pageSize then
    .error (400, "Page size must be between 1 and 100")
  else .ok (page, pageSize)

/-- The validation the strict Go backend actually performs, phrased as a
policy: unparsable values and the parsed value `0` fall back to the
defaults, then negative `page`, negative `pageSize` and `pageSize > 100`
are rejected with 400. -/
def amendedStrictValidation (rawPage rawPageSize : Option Int) :
    Except (Nat × String) (Int × Int) :=
  let page : Int := match rawPage with
    | none => 1
    | some v => if v = 0 then 1 else v
  let pageSize : Int := match rawPageSize with
    | none => 10
    | some v => if v = 0 then 10 else v
  if page < 1 then .error (400, "Page must be greater than 0")
  else if pageSize < 1 ∨ 100 < pageSize then
    .error (400, "Page size must be between 1 and 100")
  else .ok (page, pageSize)

/-- One row of the `chats` table used by the Next.js route (drizzle schema
`src/src/db/schema.ts`); `createdAt` is modelled as an abstract timestamp. -/
structure RChat where
  id : String
  sessionId : String
  userMessage : String
  aiMessage : String
  workflow : String
  createdAt : Nat
  updatedAt : Nat
deriving DecidableEq

/-- The `data` field of the Next.js route's response: the simple branch and
the empty-window session branch return a JSON array, the non-empty session
branch returns a JSON object keyed by sessionId. -/
inductive RData where
  | list (items : List RChat) : RData
  | mapping (groups : List (String × List RChat)) : RData
deriving DecidableEq

/-- Whether the route's `data` field is a JSON object (mapping) rather than
an array. -/
def RData.isMapping : RData → Bool
  | .mapping _ => true
  | .list _ => false

/-- Pagination object of the Next.js route (in its empty-window session
response the third field is serialised under the key `totalSessions`
rather than `total`; the shape is the same). -/
structure RPagination where
  page : Nat
  pageSize : Nat
  total : Nat
  totalPages : Nat
deriving DecidableEq

/-- Response envelope of the Next.js route. -/
structure RResponse where
  data : RData
  pagination : RPagination
deriving DecidableEq

/-- The route's session branch session query:
`db.selectDistinct({sessionId}).from(chatsTable).limit(pageSize).offset(offset)` —
note: no `orderBy`.  PostgreSQL gives no ordering guarantee for it; the
deterministic refinement used here returns the distinct ids in
first-appearance (row) order. -/
def routeDistinctSessions (t : List RChat) (pageSize offset : Nat) : List String :=
  (((t.map (fun c => c.sessionId)).dedup).drop offset).take pageSize

/-- `orderBy(asc/desc(createdAt), sessionId)` of the route's session branch. -/
def sortRChatsSession (ascOrder : Bool) (cs : List RChat) : List RChat :=
  if ascOrder then
    List.insertionSort
      (fun a b => a.createdAt < b.createdAt ∨ (a.createdAt = b.createdAt ∧ StrLe a.sessionId b.sessionId)) cs
  else
    List.insertionSort
      (fun a b => b.createdAt < a.createdAt ∨ (a.createdAt = b.createdAt ∧ StrLe a.sessionId b.sessionId)) cs

/-- `orderBy(asc/desc(createdAt))` of the route's simple branch. -/
def sortRChatsSimple (ascOrder : Bool) (cs : List RChat) : List RChat :=
  if ascOrder then List.insertionSort (fun a b => a.createdAt ≤ b.createdAt) cs
  else List.insertionSort (fun a b => b.createdAt ≤ a.createdAt) cs

/-- The route's `reduce` grouping: object keys in first-encounter order,
each session's rows appended in fetch order. -/
def groupRChats (cs : List RChat) : List (String × List RChat) :=
  ((cs.map (fun c => c.sessionId)).dedup).map
    (fun sid => (sid, cs.filter (fun c => decide (c.sessionId = sid))))

/-- `sortOrder` handling of the Next.js route:
`searchParams.get("sortOrder") || "asc"` — only absence (or the empty
string, which is falsy) falls back to `asc`; any other value is kept and
later compared against the literal `"asc"` alone. -/
def routeSortOrder (raw : Option String) : String :=
  match raw with
  | none => "asc"
  | some s => if s = "" then "asc" else s

/-- Session branch of the Next.js route `GET` (after validation): page over
the distinct session ids (no ordering), early-return an empty **array**
with zeroed pagination when the window is empty, else fetch, group, and
count distinct sessions over the whole table. -/
def routeSessionGET (t : List RChat) (page pageSize : Nat) (rawSortOrder : Option String) :
    RResponse :=
  let sessions := routeDistinctSessions t pageSize ((page - 1) * pageSize)
  if sessions.isEmpty then
    { data := .list [], pagination := ⟨page, pageSize, 0, 0⟩ }
  else
    let fetched := sortRChatsSession (routeSortOrder rawSortOrder = "asc")
      (t.filter (fun c => decide (c.sessionId ∈ sessions)))
    let totalSessions := ((t.map (fun c => c.sessionId)).dedup).length
    { data := .mapping (groupRChats fetched),
      pagination :=
        ⟨page, pageSize, totalSessions, (totalSessions + pageSize - 1) / pageSize⟩ }

/-- Simple branch of the Next.js route `GET` (after validation); the
`Math.ceil(total / pageSize)` is written as its integer form
`(total + pageSize - 1) / pageSize`, which agrees with the real ceiling for
every `pageSize ≥ 1` (proved below for the identical Go formula). -/
def routeSimpleGET (t : List RChat) (page pageSize : Nat) (rawSortOrder : Option String) :
    RResponse :=
  let sorted := sortRChatsSimple (routeSortOrder rawSortOrder = "asc") t
  let window := (sorted.drop ((page - 1) * pageSize)).take pageSize
  { data := .list window,
    pagination := ⟨page, pageSize, t.length, (t.length + pageSize - 1) / pageSize⟩ }

/-- The `{daily, monthly, yearly, allTime}` stats payload. -/
structure ChatStats where
  daily : Nat
  monthly : Nat
  yearly : Nat
  allTime : Nat
deriving DecidableEq

/-- Fan-in of `GetChatStatsHandler` (and of the `Promise.all` stats route):
the four count-query results are joined; if any one failed the whole
response is a single 500, otherwise the stats are assembled from all four. -/
def GetChatStatsHandler (daily monthly yearly allTime : Except String Nat) :
    Except (Nat × String) ChatStats :=
  match daily, monthly, yearly, allTime with
  | .ok d, .ok m, .ok y, .ok a => .ok ⟨d, m, y, a⟩
  | _, _, _, _ => .error (500, "Internal server error")

/-- A point in time, as produced by `time.Date(year, month, day, …)`:
calendar fields plus an intra-day remainder.  For valid calendar values the
instant order is the lexicographic order on `(year, month, day, tod)`. -/
structure Instant where
  year : Int
  month : Nat
  day : Nat
  tod : Nat
deriving DecidableEq

/-- Instant comparison (`created_at >= $1`), lexicographic on the fields. -/
def Instant.leB (a b : Instant) : Bool :=
  if a.year < b.year then true
  else if b.year < a.year then false
  else if a.month < b.month then true
  else if b.month < a.month then false
  else if a.day < b.day then true
  else if b.day < a.day then false
  else a.tod ≤ b.tod

/-- `time.Date(now.Year(), now.Month(), now.Day(), 0, 0, 0, 0, …)`. -/
def startOfToday (now : Instant) : Instant := ⟨now.year, now.month, now.day, 0⟩

/-- `time.Date(now.Year(), now.Month(), 1, 0, 0, 0, 0, …)`. -/
def startOfMonth (now : Instant) : Instant := ⟨now.year, now.month, 1, 0⟩

/-- `time.Date(now.Year(), 1, 1, 0, 0, 0, 0, …)`. -/
def startOfYear (now : Instant) : Instant := ⟨now.year, 1, 1, 0⟩

/-- A row of the table as seen by the stats queries (only `created_at` is
read). -/
structure StatRow where
  createdAt : Instant
deriving DecidableEq

/-- `SELECT COUNT(*) FROM chats WHERE created_at >= $cutoff`. -/
def countSince (t : List StatRow) (cutoff : Instant) : Nat :=
  (t.filter (fun r => Instant.leB cutoff r.createdAt)).length

/-- The four counts of the stats endpoint evaluated against one table
snapshot and one `now`. -/
def statsOf (t : List StatRow) (now : Instant) : ChatStats :=
  ⟨countSince t (startOfToday now), countSince t (startOfMonth now),
    countSince t (startOfYear now), t.length⟩

theorem listLeB_total (as bs : List Char) : listLeB as bs = true ∨ listLeB bs as = true := by
  induction as generalizing bs with
  | nil => left; rfl
  | cons a as ih =>
    cases bs with
    | nil => right; rfl
    | cons b bs =>
      simp only [listLeB]
      rcases Nat.lt_trichotomy a.toNat b.toNat with h | h | h
      · left; simp [h]
      · have h1 : ¬ a.toNat < b.toNat := by omega
        have h2 : ¬ b.toNat < a.toNat := by omega
        simpa [h1, h2] using ih bs
      · right; simp [h]

theorem listLeB_trans {as bs cs : List Char} (h1 : listLeB as bs = true)
    (h2 : listLeB bs cs = true) : listLeB as cs = true := by
  induction as generalizing bs cs with
  | nil => rfl
  | cons a as ih =>
    cases bs with
    | nil => simp [listLeB] at h1
    | cons b bs =>
      cases cs with
      | nil => simp [listLeB] at h2
      | cons c cs =>
        simp only [listLeB] at h1 h2 ⊢
        have k1 : a.toNat < b.toNat ∨ (a.toNat = b.toNat ∧ listLeB as bs = true) := by
          by_cases hab : a.toNat < b.toNat
          · exact Or.inl hab
          · by_cases hba : b.toNat < a.toNat
            · simp [hab, hba] at h1
            · exact Or.inr ⟨by omega, by simpa [hab, hba] using h1⟩
        have k2 : b.toNat < c.toNat ∨ (b.toNat = c.toNat ∧ listLeB bs cs = true) := by
          by_cases hbc : b.toNat < c.toNat
          · exact Or.inl hbc
          · by_cases hcb : c.toNat < b.toNat
            · simp [hbc, hcb] at h2
            · exact Or.inr ⟨by omega, by simpa [hbc, hcb] using h2⟩
        rcases k1 with hab | ⟨hab, hrec1⟩ <;> rcases k2 with hbc | ⟨hbc, hrec2⟩
        · have : a.toNat < c.toNat := by omega
          simp [this]
        · have : a.toNat < c.toNat := by omega
          simp [this]
        · have : a.toNat < c.toNat := by omega
          simp [this]
        · have hac : ¬ a.toNat < c.toNat := by omega
          have hca : ¬ c.toNat < a.toNat := by omega
          simpa [hac, hca] using ih hrec1 hrec2

instance : IsTotal String StrLe :=
  ⟨fun a b => listLeB_total a.data b.data⟩

instance : IsTrans String StrLe :=
  ⟨fun _ _ _ h1 h2 => listLeB_trans h1 h2⟩

theorem sortChats_perm (sortOrder : String) (cs : List Chat) :
    (sortChats sortOrder cs).Perm cs := by
  unfold sortChats
  split
  · exact List.perm_insertionSort _ _
  · exact List.perm_insertionSort _ _

theorem sortedSessions_perm (t : Table) (term : String) :
    (sortedSessions t term).Perm (distinctMatchingSessions t term) :=
  List.perm_insertionSort _ _

theorem sortedSessions_nodup (t : Table) (term : String) :
    (sortedSessions t term).Nodup :=
  ((sortedSessions_perm t term).nodup_iff).mpr (List.nodup_dedup _)

theorem sortedSessions_sorted (t : Table) (term : String) :
    (sortedSessions t term).Sorted StrLe :=
  List.sorted_insertionSort StrLe _

/-- The integer formula `(total + pageSize - 1) / pageSize` used by every
handler computes the real ceiling of `total / pageSize`. -/
theorem ceil_div_formula (t k : Nat) (hk : 1 ≤ k) :
    (((t + k - 1) / k : Nat) : Int) = Int.ceil ((t : ℚ) / (k : ℚ)) := by
  have hk0 : 0 < k := hk
  have hkQ : (0 : ℚ) < (k : ℚ) := by exact_mod_cast hk0
  set q := (t + k - 1) / k with hq
  have hA : q * k ≤ t + k - 1 := Nat.div_mul_le_self _ _
  have hB : t + k - 1 < q * k + k := by
    have h := Nat.lt_succ_self ((t + k - 1) / k)
    have h2 := (Nat.div_lt_iff_lt_mul hk0).mp h
    rw [Nat.succ_mul] at h2
    rw [hq]
    exact h2
  have h2n : (t : Int) ≤ (q : Int) * (k : Int) := by omega
  have h1n : (q : Int) * (k : Int) - (k : Int) < (t : Int) := by omega
  rw [eq_comm, Int.ceil_eq_iff]
  refine ⟨?_, ?_⟩
  · push_cast
    rw [lt_div_iff hkQ]
    have hc : ((q : ℚ)) * (k : ℚ) - (k : ℚ) < (t : ℚ) := by exact_mod_cast h1n
    nlinarith [hc]
  · push_cast
    rw [div_le_iff hkQ]
    exact_mod_cast h2n

theorem mem_groupBySession {cs : List Chat} {sid : String} {msgs : List String} :
    (sid, msgs) ∈ groupBySession cs ↔
      sid ∈ cs.map (fun c => c.sessionId) ∧
        msgs = (cs.filter (fun c => decide (c.sessionId = sid))).map (fun c => c.message) := by
  unfold groupBySession
  constructor
  · intro h
    obtain ⟨sid', hsid', heq⟩ := List.mem_map.mp h
    rw [Prod.ext_iff] at heq
    obtain ⟨h1, h2⟩ := heq
    dsimp at h1 h2
    subst h1
    exact ⟨List.mem_dedup.mp hsid', h2.symm⟩
  · intro ⟨h1, h2⟩
    exact List.mem_map.mpr ⟨sid, List.mem_dedup.mpr h1, by rw [h2]⟩

theorem isEmpty_false_of_mem {α : Type} {l : List α} {a : α} (h : a ∈ l) :
    l.isEmpty = false := by
  cases l with
  | nil => cases h
  | cons x xs => rfl

theorem mem_convList_sessionGrouping {t : Table} {page pageSize offset : Nat}
    {sortOrder term sid : String} {msgs : List String}
    (h : (sid, msgs) ∈ (handleSessionGrouping t page pageSize sortOrder offset term).data.convList) :
    sid ∈ sessionWindow t term pageSize offset ∧
      msgs.Perm ((t.filter (fun c => decide (c.sessionId = sid))).map (fun c => c.message)) := by
  by_cases hw : (sessionWindow t term pageSize offset).isEmpty
  · simp [handleSessionGrouping, hw, RespData.convList] at h
  · rw [Bool.not_eq_true] at hw
    simp only [handleSessionGrouping, hw, Bool.false_eq_true, if_false, RespData.convList] at h
    obtain ⟨hkey, hmsgs⟩ := mem_groupBySession.mp h
    set window := sessionWindow t term pageSize offset with hwdef
    have hperm : (fetchedChats t window sortOrder).Perm
        (t.filter (fun c => decide (c.sessionId ∈ window))) := sortChats_perm _ _
    have hsidwin : sid ∈ window := by
      obtain ⟨c, hc, hcs⟩ := List.mem_map.mp hkey
      have hcbase := hperm.mem_iff.mp hc
      have := (List.mem_filter.mp hcbase).2
      rw [decide_eq_true_iff] at this
      rw [← hcs]
      exact this
    refine ⟨hsidwin, ?_⟩
    rw [hmsgs]
    apply List.Perm.map
    have hp1 : ((fetchedChats t window sortOrder).filter (fun c => decide (c.sessionId = sid))).Perm
        ((t.filter (fun c => decide (c.sessionId ∈ window))).filter (fun c => decide (c.sessionId = sid))) :=
      hperm.filter _
    have hp2 : (t.filter (fun c => decide (c.sessionId ∈ window))).filter
        (fun c => decide (c.sessionId = sid)) = t.filter (fun c => decide (c.sessionId = sid)) := by
      rw [List.filter_filter]
      apply List.filter_congr
      intro c _
      by_cases hcs : c.sessionId = sid
      · subst hcs
        simp [hsidwin]
      · simp [hcs]
    rw [hp2] at hp1
    exact hp1

theorem window_subset_distinct {t : Table} {term : String} {pageSize offset : Nat} :
    sessionWindow t term pageSize offset ⊆ distinctMatchingSessions t term := by
  intro sid h
  have h1 : sid ∈ sortedSessions t term :=
    List.drop_subset _ _ (List.take_subset _ _ h)
  exact (sortedSessions_perm t term).mem_iff.mp h1

theorem mem_window_appears {t : Table} {page pageSize offset : Nat}
    {sortOrder term sid : String}
    (hsid : sid ∈ sessionWindow t term pageSize offset) :
    ∃ msgs, (sid, msgs) ∈ (handleSessionGrouping t page pageSize sortOrder offset term).data.convList := by
  have hw : (sessionWindow t term pageSize offset).isEmpty = false := isEmpty_false_of_mem hsid
  simp only [handleSessionGrouping, hw, Bool.false_eq_true, if_false, RespData.convList]
  set window := sessionWindow t term pageSize offset with hwdef
  have hdm : sid ∈ distinctMatchingSessions t term := window_subset_distinct hsid
  obtain ⟨c, hc, hcs⟩ := List.mem_map.mp (List.mem_dedup.mp hdm)
  have hct : c ∈ t := (List.mem_filter.mp hc).1
  have hcbase : c ∈ t.filter (fun c => decide (c.sessionId ∈ window)) := by
    rw [List.mem_filter]
    refine ⟨hct, ?_⟩
    rw [decide_eq_true_iff, hcs]
    exact hsid
  have hperm : (fetchedChats t window sortOrder).Perm
      (t.filter (fun c => decide (c.sessionId ∈ window))) := sortChats_perm _ _
  have hkey : sid ∈ (fetchedChats t window sortOrder).map (fun c => c.sessionId) :=
    List.mem_map.mpr ⟨c, hperm.mem_iff.mpr hcbase, hcs⟩
  exact ⟨_, mem_groupBySession.mpr ⟨hkey, rfl⟩⟩

theorem window_disjoint_of_ranges {α : Type} {l : List α} (hl : l.Nodup) {k a b : Nat}
    (h : a + k ≤ b) : ((l.drop a).take k).Disjoint ((l.drop b).take k) := by
  intro x hx hx'
  have hnd : (l.drop a).Nodup := (List.drop_sublist a l).nodup hl
  have hdisj : ((l.drop a).take k).Disjoint ((l.drop a).drop k) :=
    List.disjoint_take_drop hnd le_rfl
  apply hdisj hx
  have hrw : l.drop b = ((l.drop a).drop k).drop (b - (a + k)) := by
    rw [List.drop_drop, List.drop_drop]
    congr 1
    omega
  rw [hrw] at hx'
  exact List.drop_subset _ _ (List.take_subset _ _ hx')

theorem length_filter_mono {α : Type} {p q : α → Bool} (l : List α)
    (h : ∀ a ∈ l, p a = true → q a = true) :
    (l.filter p).length ≤ (l.filter q).length := by
  induction l with
  | nil => simp
  | cons x xs ih =>
    have ih' := ih (fun a ha hpa => h a (List.mem_cons_of_mem _ ha) hpa)
    simp only [List.filter_cons]
    by_cases hpx : p x = true
    · rw [if_pos hpx, if_pos (h x (List.mem_cons_self _ _) hpx)]
      simpa using ih'
    · rw [if_neg hpx]
      split
      · calc (xs.filter p).length ≤ (xs.filter q).length := ih'
          _ ≤ (x :: xs.filter q).length := by simp
      · exact ih'

theorem Instant.leB_iff {a b : Instant} : a.leB b = true ↔
    (a.year < b.year ∨ (a.year = b.year ∧ (a.month < b.month ∨ (a.month = b.month ∧
      (a.day < b.day ∨ (a.day = b.day ∧ a.tod ≤ b.tod)))))) := by
  unfold Instant.leB
  split_ifs <;> simp <;> omega

theorem Instant.leB_trans {a b c : Instant} (h1 : a.leB b = true) (h2 : b.leB c = true) :
    a.leB c = true := by
  rw [Instant.leB_iff] at h1 h2 ⊢
  omega

theorem countSince_mono {t : List StatRow} {c1 c2 : Instant} (h : c1.leB c2 = true) :
    countSince t c2 ≤ countSince t c1 := by
  unfold countSince
  apply length_filter_mono
  intro r _ hr
  exact Instant.leB_trans h hr

/-- C1: in session mode with a non-empty search term, the filter is applied
at session selection: a session id is selected exactly when some of its rows
matches the case-insensitive substring predicate (on the message text or on
the session id); every conversation in the response belongs to a selected
session and carries ALL of that session's rows — including rows that do not
themselves match — and every session id of the page window appears in the
response. -/
theorem c1_search_selects_whole_sessions (t : Table) (term sid : String)
    (hterm : term ≠ "") :
    (sid ∈ distinctMatchingSessions t term ↔
      ∃ c, c ∈ t ∧ c.sessionId = sid ∧ rowMatches term c = true)
    ∧ (∀ page pageSize offset sortOrder msgs,
        (sid, msgs) ∈ (handleSessionGrouping t page pageSize sortOrder offset term).data.convList →
          sid ∈ distinctMatchingSessions t term ∧
            msgs.Perm ((t.filter (fun c => decide (c.sessionId = sid))).map (fun c => c.message)))
    ∧ (∀ page pageSize offset sortOrder,
        sid ∈ sessionWindow t term pageSize offset →
          ∃ msgs,
            (sid, msgs) ∈ (handleSessionGrouping t page pageSize sortOrder offset term).data.convList) := by
  refine ⟨?_, ?_, ?_⟩
  · unfold distinctMatchingSessions matchingRows
    rw [List.mem_dedup]
    simp only [List.mem_map, List.mem_filter, sessionFilterRow, hterm, if_false, if_neg hterm]
    constructor
    · rintro ⟨c, ⟨hct, hmatch⟩, rfl⟩
      exact ⟨c, hct, rfl, hmatch⟩
    · rintro ⟨c, hct, rfl, hmatch⟩
      exact ⟨c, ⟨hct, hmatch⟩, rfl⟩
  · intro page pageSize offset sortOrder msgs h
    have hmem := mem_convList_sessionGrouping h
    exact ⟨window_subset_distinct hmem.1, hmem.2⟩
  · intro page pageSize offset sortOrder h
    exact mem_window_appears h

/-- Witness for C1 on the spec's own example: sessions `s1` (messages
`hello`, `foo`) and `s2` (messages `bar`, `baz`), search term `hello`. -/
theorem c1_search_selects_whole_sessions_witness :
    ("s1" ∈ distinctMatchingSessions
        [⟨1, "s1", "hello"⟩, ⟨2, "s1", "foo"⟩, ⟨3, "s2", "bar"⟩, ⟨4, "s2", "baz"⟩] "hello" ↔
      ∃ c, c ∈ ([⟨1, "s1", "hello"⟩, ⟨2, "s1", "foo"⟩, ⟨3, "s2", "bar"⟩, ⟨4, "s2", "baz"⟩] : Table) ∧
        c.sessionId = "s1" ∧ rowMatches "hello" c = true) :=
  (c1_search_selects_whole_sessions
    [⟨1, "s1", "hello"⟩, ⟨2, "s1", "foo"⟩, ⟨3, "s2", "bar"⟩, ⟨4, "s2", "baz"⟩]
    "hello" "s1" (by decide)).1

/-- C2 counterexample: with one stored session and `page = 2, pageSize = 10`
(empty page window) the session handler reports `total = 0` although exactly
one distinct session id matches the (empty) filter — the early-return branch
never runs the count query, so the reported total is not the distinct-session
count for every request. -/
theorem c2_total_counterexample :
    (handleSessionGrouping [⟨1, "s1", "hello"⟩] 2 10 "asc" 10 "").pagination.total = 0
    ∧ (distinctMatchingSessions [⟨1, "s1", "hello"⟩] "").length = 1 := by
  constructor <;> rfl

/-- C2 as amended: whenever the selected page window is non-empty, the
reported `total` is the number of distinct session ids matching the same
filter predicate used for session selection (and `totalPages` is derived
from it — see the pagination theorem). -/
theorem c2_total_is_distinct_count (t : Table) (page pageSize offset : Nat)
    (sortOrder term : String)
    (h : sessionWindow t term pageSize offset ≠ []) :
    (handleSessionGrouping t page pageSize sortOrder offset term).pagination.total
      = (distinctMatchingSessions t term).length := by
  obtain ⟨x, hx⟩ := List.exists_mem_of_ne_nil _ h
  have hw : (sessionWindow t term pageSize offset).isEmpty = false := isEmpty_false_of_mem hx
  simp [handleSessionGrouping, hw]

/-- Witness for the amended C2 at a non-empty window. -/
theorem c2_total_is_distinct_count_witness :
    (handleSessionGrouping [⟨1, "s1", "hi"⟩] 1 10 "asc" 0 "").pagination.total
      = (distinctMatchingSessions [⟨1, "s1", "hi"⟩] "").length :=
  c2_total_is_distinct_count [⟨1, "s1", "hi"⟩] 1 10 0 "asc" "" (by decide)

/-- C3: in both modes, the reported `totalPages` is the real ceiling of
`total / pageSize`, for every table, page, offset, search term, and every
`pageSize` in `[1, 100]`; in particular `total = 0` yields `totalPages = 0`. -/
theorem c3_totalPages_is_ceiling (t : Table) (page pageSize offset : Nat)
    (sortOrder term : String) (h1 : 1 ≤ pageSize) (h2 : pageSize ≤ 100) :
    (((handleSimplePagination t page pageSize sortOrder offset term).pagination.totalPages : Int)
      = Int.ceil (((handleSimplePagination t page pageSize sortOrder offset term).pagination.total : ℚ)
          / (pageSize : ℚ)))
    ∧ (((handleSessionGrouping t page pageSize sortOrder offset term).pagination.totalPages : Int)
      = Int.ceil (((handleSessionGrouping t page pageSize sortOrder offset term).pagination.total : ℚ)
          / (pageSize : ℚ))) := by
  constructor
  · simp only [handleSimplePagination]
    exact ceil_div_formula _ _ h1
  · by_cases hw : (sessionWindow t term pageSize offset).isEmpty
    · simp only [handleSessionGrouping, hw, if_true]
      norm_num
    · rw [Bool.not_eq_true] at hw
      simp only [handleSessionGrouping, hw, Bool.false_eq_true, if_false]
      exact ceil_div_formula _ _ h1

/-- Witness for C3 at `total = 0` (empty table) and `pageSize = 10`. -/
theorem c3_totalPages_is_ceiling_witness :
    (((handleSimplePagination [] 1 10 "asc" 0 "").pagination.totalPages : Int)
      = Int.ceil (((handleSimplePagination [] 1 10 "asc" 0 "").pagination.total : ℚ) / (10 : ℚ)))
    ∧ (((handleSessionGrouping [] 1 10 "asc" 0 "").pagination.totalPages : Int)
      = Int.ceil (((handleSessionGrouping [] 1 10 "asc" 0 "").pagination.total : ℚ) / (10 : ℚ))) :=
  c3_totalPages_is_ceiling [] 1 10 0 "asc" "" (by decide) (by decide)

theorem groupBySession_keys (cs : List Chat) :
    (groupBySession cs).map Prod.fst = (cs.map (fun c => c.sessionId)).dedup := by
  unfold groupBySession
  rw [List.map_map]
  exact List.map_id' _

/-- C4 counterexample: the Next.js route (and likewise the strict Go
variant) issues `SELECT DISTINCT session_id … LIMIT … OFFSET` without any
`ORDER BY`, so the page window of session ids is not lexicographically
sorted: with rows inserted for sessions `b` then `a`, the first window is
`[b, a]`. -/
theorem c4_unsorted_window_counterexample :
    ¬ (routeDistinctSessions
        [⟨"1", "b", "u", "a", "w", 0, 0⟩, ⟨"2", "a", "u", "a", "w", 0, 0⟩] 2 0).Sorted StrLe := by
  decide

/-- C4 as amended, on the searchable Go backend (whose session query does
`ORDER BY session_id`): the page window of distinct session ids is sorted
lexicographically; windows of two distinct pages are disjoint (no session
appears on two pages); the window ignores `sortOrder`, which only permutes
the response — same conversation keys up to order, and, per session, the
same messages up to order. -/
theorem c4_session_ordering (t : Table) (term sortOrder sortOrder2 sid : String)
    (pageSize p q : Nat) (msgs msgs2 : List String)
    (hk : 1 ≤ pageSize) (hp : 1 ≤ p) (hq : 1 ≤ q) (hpq : p ≠ q)
    (hm : (sid, msgs) ∈
      (handleSessionGrouping t p pageSize sortOrder ((p - 1) * pageSize) term).data.convList)
    (hm2 : (sid, msgs2) ∈
      (handleSessionGrouping t p pageSize sortOrder2 ((p - 1) * pageSize) term).data.convList) :
    (sessionWindow t term pageSize ((p - 1) * pageSize)).Sorted StrLe
    ∧ (sessionWindow t term pageSize ((p - 1) * pageSize)).Disjoint
        (sessionWindow t term pageSize ((q - 1) * pageSize))
    ∧ ((handleSessionGrouping t p pageSize sortOrder ((p - 1) * pageSize) term).data.convList.map
          Prod.fst).Perm
        ((handleSessionGrouping t p pageSize sortOrder2 ((p - 1) * pageSize) term).data.convList.map
          Prod.fst)
    ∧ msgs.Perm msgs2 := by
  have hwin : sid ∈ sessionWindow t term pageSize ((p - 1) * pageSize) :=
    (mem_convList_sessionGrouping hm).1
  have hw : (sessionWindow t term pageSize ((p - 1) * pageSize)).isEmpty = false :=
    isEmpty_false_of_mem hwin
  refine ⟨?_, ?_, ?_, ?_⟩
  · exact List.Pairwise.sublist
      ((List.take_sublist _ _).trans (List.drop_sublist _ _)) (sortedSessions_sorted t term)
  · have key : ∀ a b : Nat, 1 ≤ a → a < b →
        (sessionWindow t term pageSize ((a - 1) * pageSize)).Disjoint
          (sessionWindow t term pageSize ((b - 1) * pageSize)) := by
      intro a b ha hab
      apply window_disjoint_of_ranges (sortedSessions_nodup t term)
      have e1 : (a - 1) * pageSize + pageSize = ((a - 1) + 1) * pageSize := (Nat.succ_mul _ _).symm
      have e2 : (a - 1) + 1 = a := by omega
      rw [e2] at e1
      have e3 : a * pageSize ≤ (b - 1) * pageSize := Nat.mul_le_mul_right _ (by omega)
      omega
    rcases Nat.lt_or_ge p q with hlt | hge
    · exact key p q hp hlt
    · have hqp : q < p := by omega
      intro x hx hx'
      exact key q p hq hqp hx' hx
  · simp only [handleSessionGrouping, hw, Bool.false_eq_true, if_false, RespData.convList]
    rw [groupBySession_keys, groupBySession_keys]
    apply List.Perm.dedup
    apply List.Perm.map
    exact (sortChats_perm _ _).trans (sortChats_perm _ _).symm
  · exact ((mem_convList_sessionGrouping hm).2).trans
      ((mem_convList_sessionGrouping hm2).2).symm

/-- Witness for the amended C4 at a one-session table, pages 1 and 2,
sort orders `asc` and `desc`. -/
theorem c4_session_ordering_witness :
    (sessionWindow [⟨1, "s1", "hi"⟩] "" 1 ((1 - 1) * 1)).Sorted StrLe
    ∧ (sessionWindow [⟨1, "s1", "hi"⟩] "" 1 ((1 - 1) * 1)).Disjoint
        (sessionWindow [⟨1, "s1", "hi"⟩] "" 1 ((2 - 1) * 1))
    ∧ ((handleSessionGrouping [⟨1, "s1", "hi"⟩] 1 1 "asc" ((1 - 1) * 1) "").data.convList.map
          Prod.fst).Perm
        ((handleSessionGrouping [⟨1, "s1", "hi"⟩] 1 1 "desc" ((1 - 1) * 1) "").data.convList.map
          Prod.fst)
    ∧ (["hi"] : List String).Perm ["hi"] :=
  c4_session_ordering [⟨1, "s1", "hi"⟩] "" "asc" "desc" "s1" 1 1 2 ["hi"] ["hi"]
    (by decide) (by decide) (by decide) (by decide) (by decide) (by decide)

/-- C5 counterexample: under the strict Go variant the raw value
`pageSize=0` parses as the integer `0`, which the claimed policy would
reject as out of range, but the handler folds it into the default `10` and
accepts the request. -/
theorem c5_pageSize_zero_counterexample :
    getChatsHandlerB (some 1) (some 0) "asc" "" = .ok (1, 10, "asc", Mode.simple)
    ∧ claimedStrictValidation (some 1) (some 0)
        = .error (400, "Page size must be between 1 and 100") := by
  constructor <;> rfl

/-- C5 as amended: unparsable values AND the parsed value `0` fall back to
the defaults (`1` and `10`) before range validation; after that fallback
`page < 1` or `pageSize` outside `[1,100]` is rejected with a 400 and a
descriptive message.  At the boundaries: raw `pageSize` `0` is accepted as
`10`, `1` and `100` are accepted as themselves, `101` is rejected. -/
theorem c5_strict_validation (rawPage rawPageSize : Option Int) (sortOrder groupBy : String) :
    ((getChatsHandlerB rawPage rawPageSize sortOrder groupBy).map (fun r => (r.1, r.2.1))
        = amendedStrictValidation rawPage rawPageSize)
    ∧ getChatsHandlerB (some 1) (some 0) "asc" "" = .ok (1, 10, "asc", Mode.simple)
    ∧ getChatsHandlerB (some 1) (some 1) "asc" "" = .ok (1, 1, "asc", Mode.simple)
    ∧ getChatsHandlerB (some 1) (some 100) "asc" "" = .ok (1, 100, "asc", Mode.simple)
    ∧ getChatsHandlerB (some 1) (some 101) "asc" ""
        = .error (400, "Page size must be between 1 and 100")
    ∧ getChatsHandlerB (some 0) (some 10) "asc" "" = .ok (1, 10, "asc", Mode.simple) := by
  refine ⟨?_, rfl, rfl, rfl, rfl, rfl⟩
  unfold getChatsHandlerB amendedStrictValidation
  cases rawPage <;> cases rawPageSize <;> dsimp only <;> split_ifs <;> rfl

/-- C6 counterexample: the Next.js route compares `sortOrder` only against
the literal `asc`, so an invalid value such as `bogus` behaves exactly like
`desc` — and differently from `asc` — rather than being treated as `asc`. -/
theorem c6_invalid_sortOrder_counterexample :
    routeSimpleGET [⟨"1", "s1", "u", "a", "w", 1, 1⟩, ⟨"2", "s2", "u", "a", "w", 2, 2⟩]
        1 10 (some "bogus")
      = routeSimpleGET [⟨"1", "s1", "u", "a", "w", 1, 1⟩, ⟨"2", "s2", "u", "a", "w", 2, 2⟩]
        1 10 (some "desc")
    ∧ routeSimpleGET [⟨"1", "s1", "u", "a", "w", 1, 1⟩, ⟨"2", "s2", "u", "a", "w", 2, 2⟩]
        1 10 (some "bogus")
      ≠ routeSimpleGET [⟨"1", "s1", "u", "a", "w", 1, 1⟩, ⟨"2", "s2", "u", "a", "w", 2, 2⟩]
        1 10 (some "asc") := by
  constructor
  · rfl
  · decide

/-- C6 as amended: in both Go backends an invalid or missing `sortOrder`
silently becomes `asc` and any `groupBy` other than `session` dispatches to
the simple branch, and neither parameter can cause an error (the strict
handler's acceptance is independent of both); in the Next.js route a missing
`sortOrder` defaults to `asc`, but any other invalid value behaves as
`desc`; no value of either parameter produces an error response anywhere. -/
theorem c6_permissive_sort_group (s g : String) (rawPage rawPageSize : Option Int)
    (t : List RChat) (page pageSize : Nat)
    (hs1 : s ≠ "asc") (hs2 : s ≠ "desc") (hs3 : s ≠ "") (hg : g ≠ "session") :
    normalizeSortOrder s = "asc"
    ∧ dispatchMode g = Mode.simple
    ∧ (getChatsHandlerB rawPage rawPageSize s g).isOk
        = (getChatsHandlerB rawPage rawPageSize "asc" "simple").isOk
    ∧ routeSimpleGET t page pageSize (some s) = routeSimpleGET t page pageSize (some "desc")
    ∧ routeSimpleGET t page pageSize none = routeSimpleGET t page pageSize (some "asc") := by
  refine ⟨?_, ?_, ?_, ?_, rfl⟩
  · unfold normalizeSortOrder
    rw [if_pos ⟨hs1, hs2⟩]
  · unfold dispatchMode normalizeGroupBy
    by_cases hge : g = ""
    · simp [hge]
    · simp [hge, hg]
  · unfold getChatsHandlerB
    dsimp only
    split_ifs <;> rfl
  · unfold routeSimpleGET routeSortOrder
    dsimp only
    rw [if_neg hs3]
    have h1 : (decide (s = "asc")) = false := by simp [hs1]
    rw [h1]
    rfl

/-- Witness for the amended C6 with the invalid values `bogus` / `rows`. -/
theorem c6_permissive_sort_group_witness :
    normalizeSortOrder "bogus" = "asc"
    ∧ dispatchMode "rows" = Mode.simple
    ∧ (getChatsHandlerB (some 2) (some 5) "bogus" "rows").isOk
        = (getChatsHandlerB (some 2) (some 5) "asc" "simple").isOk
    ∧ routeSimpleGET [⟨"1", "s1", "u", "a", "w", 1, 1⟩] 1 10 (some "bogus")
      = routeSimpleGET [⟨"1", "s1", "u", "a", "w", 1, 1⟩] 1 10 (some "desc")
    ∧ routeSimpleGET [⟨"1", "s1", "u", "a", "w", 1, 1⟩] 1 10 none
      = routeSimpleGET [⟨"1", "s1", "u", "a", "w", 1, 1⟩] 1 10 (some "asc") :=
  c6_permissive_sort_group "bogus" "rows" (some 2) (some 5)
    [⟨"1", "s1", "u", "a", "w", 1, 1⟩] 1 10
    (by decide) (by decide) (by decide) (by decide)

/-- C7 counterexample: on an empty page window the Next.js route returns
`data: []` — a JSON array, not an empty mapping — even though a session
exists in the table. -/
theorem c7_empty_window_counterexample :
    (routeSessionGET [⟨"1", "s1", "u", "a", "w", 1, 1⟩] 2 10 (some "asc")).data
      = RData.list []
    ∧ (routeSessionGET [⟨"1", "s1", "u", "a", "w", 1, 1⟩] 2 10 (some "asc")).data.isMapping
      = false := by
  constructor <;> rfl

/-- C7 as amended, on the Go backends: whenever the selected page window of
session ids is empty, the session handler returns an empty mapping with
`total = 0` and `totalPages = 0`, regardless of how many sessions exist in
the table; the Next.js route instead returns an empty array (with the same
zeroed pagination). -/
theorem c7_empty_window_empty_mapping (t : Table) (page pageSize offset : Nat)
    (sortOrder term : String)
    (h : sessionWindow t term pageSize offset = []) :
    handleSessionGrouping t page pageSize sortOrder offset term
      = ⟨.convs [], ⟨page, pageSize, 0, 0, "session"⟩⟩ := by
  have hw : (sessionWindow t term pageSize offset).isEmpty = true := by
    rw [h]
    rfl
  simp [handleSessionGrouping, hw]

/-- Witness for the amended C7: one stored session, requested page 2 with
page size 10 — the window is empty while the table is not. -/
theorem c7_empty_window_empty_mapping_witness :
    handleSessionGrouping [⟨1, "s1", "hi"⟩] 2 10 "asc" 10 ""
      = ⟨.convs [], ⟨2, 10, 0, 0, "session"⟩⟩ :=
  c7_empty_window_empty_mapping [⟨1, "s1", "hi"⟩] 2 10 10 "asc" "" (by decide)

/-- C8: the stats fan-in is all-or-nothing — if any of the four count
results failed, the whole response is the single internal error and no
partial stats are returned; a successful response implies all four counts
succeeded and are reported verbatim. -/
theorem c8_stats_all_or_nothing (d m y a : Except String Nat) :
    ((d.isOk && m.isOk && y.isOk && a.isOk) = false →
      GetChatStatsHandler d m y a = .error (500, "Internal server error"))
    ∧ (∀ s, GetChatStatsHandler d m y a = .ok s →
        d = .ok s.daily ∧ m = .ok s.monthly ∧ y = .ok s.yearly ∧ a = .ok s.allTime) := by
  constructor
  · intro h
    cases d <;> cases m <;> cases y <;> cases a <;>
      first
        | rfl
        | (simp [Except.isOk, Except.toBool] at h)
  · intro s hs
    cases d <;> cases m <;> cases y <;> cases a <;>
      first
        | (simp only [GetChatStatsHandler, Except.ok.injEq] at hs
           subst hs
           exact ⟨rfl, rfl, rfl, rfl⟩)
        | (simp [GetChatStatsHandler] at hs)

/-- Witness for C8: one failing count query forces the single 500. -/
theorem c8_stats_all_or_nothing_witness :
    GetChatStatsHandler (.error "query failed") (.ok 1) (.ok 2) (.ok 3)
      = .error (500, "Internal server error") :=
  (c8_stats_all_or_nothing (.error "query failed") (.ok 1) (.ok 2) (.ok 3)).1 (by decide)

/-- C10: for a fixed table snapshot and a valid calendar instant `now`
(month and day at least 1), the four stats counts are monotone:
daily ≤ monthly ≤ yearly ≤ allTime, because the three thresholds derived
from the same `now` satisfy start-of-year ≤ start-of-month ≤ start-of-today
and the all-time count is unconditional. -/
theorem c10_stats_monotone (t : List StatRow) (now : Instant)
    (hm : 1 ≤ now.month) (hd : 1 ≤ now.day) :
    (statsOf t now).daily ≤ (statsOf t now).monthly
    ∧ (statsOf t now).monthly ≤ (statsOf t now).yearly
    ∧ (statsOf t now).yearly ≤ (statsOf t now).allTime := by
  have h1 : (startOfMonth now).leB (startOfToday now) = true := by
    rw [Instant.leB_iff]
    dsimp only [startOfMonth, startOfToday]
    omega
  have h2 : (startOfYear now).leB (startOfMonth now) = true := by
    rw [Instant.leB_iff]
    dsimp only [startOfYear, startOfMonth]
    omega
  dsimp only [statsOf]
  exact ⟨countSince_mono h1, countSince_mono h2, List.length_filter_le _ _⟩

/-- Witness for C10 at a concrete snapshot and instant. -/
theorem c10_stats_monotone_witness :
    (statsOf [⟨⟨2025, 1, 1, 0⟩⟩, ⟨⟨2025, 10, 11, 5⟩⟩] ⟨2025, 10, 11, 43200⟩).daily
        ≤ (statsOf [⟨⟨2025, 1, 1, 0⟩⟩, ⟨⟨2025, 10, 11, 5⟩⟩] ⟨2025, 10, 11, 43200⟩).monthly
    ∧ (statsOf [⟨⟨2025, 1, 1, 0⟩⟩, ⟨⟨2025, 10, 11, 5⟩⟩] ⟨2025, 10, 11, 43200⟩).monthly
        ≤ (statsOf [⟨⟨2025, 1, 1, 0⟩⟩, ⟨⟨2025, 10, 11, 5⟩⟩] ⟨2025, 10, 11, 43200⟩).yearly
    ∧ (statsOf [⟨⟨2025, 1, 1, 0⟩⟩, ⟨⟨2025, 10, 11, 5⟩⟩] ⟨2025, 10, 11, 43200⟩).yearly
        ≤ (statsOf [⟨⟨2025, 1, 1, 0⟩⟩, ⟨⟨2025, 10, 11, 5⟩⟩] ⟨2025, 10, 11, 43200⟩).allTime :=
  c10_stats_monotone [⟨⟨2025, 1, 1, 0⟩⟩, ⟨⟨2025, 10, 11, 5⟩⟩] ⟨2025, 10, 11, 43200⟩
    (by decide) (by decide)
